import Mathlib

/-!
Shallow embedding of the database administration command subsystem
(`backend/src/db/cmd.rs`): connection-URI building with percent-encoding,
the transactional schema clear with its interactive confirmation gate and
search-index synchronisation, the command dispatcher, and the
process-delegated console/dump/restore commands.

Rust strings are modelled as lists of bytes (`List Nat`, each `< 256`);
ASCII string literals are injected with `litBytes`. Side effects are
modelled as an explicit event trace plus a store state threaded through an
abstract statement-application function; fallible external steps (starting
the transaction, reading the inventory, committing, reaching the search
subsystem) are driven by boolean oracles in an environment record.
-/

namespace Tobira

/-- Bytes of an ASCII string literal (UTF-8 agrees with the code points used). -/
def litBytes (s : String) : List Nat := s.data.map Char.toNat

/-- Decimal rendering of a number, as bytes — how `format!` renders the port. -/
def natBytes (n : Nat) : List Nat := (Nat.toDigits 10 n).map Char.toNat

/-- Byte 39 (ASCII apostrophe), used inside one of the SQL statement literals. -/
def aposByte : List Nat := [39]

/-- The apostrophe as a one-character string. -/
def aposStr : String := String.singleton (Char.ofNat 39)

/-- ASCII alphanumeric test: the complement of the `NON_ALPHANUMERIC` set of
the `percent_encoding` crate. -/
def isAlnumByte (b : Nat) : Bool :=
  (48 ≤ b && b ≤ 57) || (65 ≤ b && b ≤ 90) || (97 ≤ b && b ≤ 122)

/-- Upper-case hex digit for a value below 16, as the `percent_encoding`
crate emits it. -/
def hexDigitByte (n : Nat) : Nat := if n < 10 then 48 + n else 55 + n

/-- The byte test matching the digits `hexDigitByte` can produce. -/
def isHexDigitByte (d : Nat) : Bool := (48 ≤ d && d ≤ 57) || (65 ≤ d && d ≤ 70)

/-- Value of an upper-case hex digit byte. -/
def hexVal (d : Nat) : Nat := if d ≤ 57 then d - 48 else d - 55

/-- Model of `utf8_percent_encode(s, NON_ALPHANUMERIC)`: every byte outside
ASCII alphanumerics is replaced by a percent escape. -/
def percentEncode : List Nat → List Nat
  | [] => []
  | b :: rest =>
    if isAlnumByte b then b :: percentEncode rest
    else 37 :: hexDigitByte (b / 16) :: hexDigitByte (b % 16) :: percentEncode rest

/-- Field-wise percent decoding: inverse of `percentEncode` on its image. -/
def percentDecode : List Nat → Option (List Nat)
  | [] => some []
  | b :: rest =>
    if b = 37 then
      match rest with
      | h :: l :: rest2 =>
        if isHexDigitByte h && isHexDigitByte l then
          (percentDecode rest2).map (fun t => (hexVal h * 16 + hexVal l) :: t)
        else none
      | _ => none
    else (percentDecode rest).map (fun t => b :: t)

/-- A byte list is in escaped form: literal bytes are alphanumeric and every
other byte is carried by a two-hex-digit percent escape. -/
def escapedForm : List Nat → Bool
  | [] => true
  | b :: rest =>
    if b = 37 then
      match rest with
      | h :: l :: rest2 => isHexDigitByte h && isHexDigitByte l && escapedForm rest2
      | _ => false
    else isAlnumByte b && escapedForm rest

/-- Connection configuration (`DbConfig`). `password` is a `Secret<String>`
in the source, exposed only when the URI is assembled; here it is carried as
plain bytes since only that exposure point is modelled. -/
structure DbConfig where
  host : List Nat
  port : Nat
  user : List Nat
  password : List Nat
  database : List Nat

/-- The slice of the application `Config` that the db commands touch. The
`meili` (search subsystem) member is modelled through the environment flags
of the clear operation. -/
structure Config where
  db : DbConfig

/-- Model of `connection_uri`: percent-encode user, password and database
name; host and port are inserted verbatim. -/
def connection_uri (config : DbConfig) : List Nat :=
  litBytes "postgresql://"
    ++ percentEncode config.user
    ++ litBytes ":"
    ++ percentEncode config.password
    ++ litBytes "@"
    ++ config.host
    ++ litBytes ":"
    ++ natBytes config.port
    ++ litBytes "/"
    ++ percentEncode config.database

/-- Transaction isolation levels of `tokio_postgres::IsolationLevel`. -/
inductive IsolationLevel
  | readUncommitted
  | readCommitted
  | repeatableRead
  | serializable
  deriving DecidableEq

/-- Observable actions of the subsystem, in the order they are issued. -/
inductive Event
  | createPool
  | getConn
  | beginTx (iso : IsolationLevel)
  | queryTableNames
  | queryRowCount (table : List Nat)
  | promptForYes
  | execSql (stmt : List Nat)
  | commit
  | meiliConnect
  | meiliClear
  | migrate
  | readScriptFile (path : List Nat)
  | batchExecute
  | overwriteMigrations
  | execProcess (program : String) (args : List (List Nat))
  deriving DecidableEq

/-- `ClearOptions`: the single `--yes-absolutely-clear-db` flag, i.e. the
skip-confirmation option. -/
structure ClearOptions where
  yes_absolutely_clear_db : Bool
  deriving DecidableEq

/-- The closed set of `db` subcommands (`DbCommand`). The last variant
models `UnsafeOverwriteMigrations`. -/
inductive DbCommand
  | clear (options : ClearOptions)
  | script (script : List Nat)
  | migrate
  | console
  | dump (path : List Nat)
  | restore (dump : List Nat)
  | reset (clear : ClearOptions)
  | overwriteMigrations
  deriving DecidableEq

/-- Modelled from the spec: `crate::cmd::prompt_for_yes` is referenced by
`clear` but its body is not among the given sources. Per the spec, the
prompt reads one line of operator input and compares it exactly to the
literal token `yes`; any other input aborts the operation, which given the
`?` operator at the call site means an error return. -/
def prompt_for_yes (input : List Nat) : Except String Unit :=
  if input = litBytes "yes" then Except.ok () else Except.error "user did not confirm the action"

/-- The five destructive statements issued by `clear`, in source order. The
third one interpolates the configured user verbatim, the fifth contains two
apostrophe bytes. -/
def clearStmts (cfg : Config) : List (List Nat) :=
  [ litBytes "drop schema public cascade",
    litBytes "create schema public",
    litBytes "grant all on schema public to " ++ cfg.db.user,
    litBytes "grant all on schema public to public",
    litBytes "comment on schema public is " ++ aposByte
      ++ litBytes "standard public schema" ++ aposByte ]

/-- Environment for one `clear` attempt: the tables the inventory query
returns, the line the operator types, and success oracles for the fallible
external steps (transaction start, the inventory queries — covering
`all_table_names` and the per-table count queries, any of which aborts via
`?` identically —, the commit, and connecting to / clearing the search
index). -/
structure ClearEnv where
  txStartOk : Bool
  inventoryOk : Bool
  tables : List (List Nat)
  input : List Nat
  commitOk : Bool
  meiliConnectOk : Bool
  meiliClearOk : Bool

/-- Result of a `clear` run: the event trace, the `Result<()>` value, and
the committed store state. -/
structure ClearResult (σ : Type) where
  trace : List Event
  result : Except String Unit
  db : σ

/-- The destructive tail of `clear`, entered once the confirmation gate has
been passed (or skipped): issue the five statements inside the still-open
transaction, commit, then connect to the search subsystem and clear its
index. `tr` is the trace accumulated so far. -/
def clearFinish {σ : Type} (applyStmt : σ → List Nat → σ) (env : ClearEnv) (cfg : Config)
    (s0 : σ) (tr : List Event) : ClearResult σ :=
  let tr3 := tr ++ (clearStmts cfg).map Event.execSql ++ [Event.commit]
  if env.commitOk = false then
    ⟨tr3, Except.error "failed to commit clear transaction", s0⟩
  else
    let s1 := (clearStmts cfg).foldl applyStmt s0
    if env.meiliConnectOk = false then
      ⟨tr3 ++ [Event.meiliConnect], Except.error "failed to connect to search index", s1⟩
    else
      if env.meiliClearOk = false then
        ⟨tr3 ++ [Event.meiliConnect, Event.meiliClear],
          Except.error "failed to clear search index", s1⟩
      else
        ⟨tr3 ++ [Event.meiliConnect, Event.meiliClear], Except.ok (), s1⟩

/-- Model of `clear`. The store is an abstract state `σ` with a statement
application function; statements executed inside the transaction take
effect only at a successful commit (dropping the transaction discards
them), which embeds the transactional semantics the source relies on. The
trace records each issued action, including attempts that then fail. -/
def clear {σ : Type} (applyStmt : σ → List Nat → σ) (env : ClearEnv) (cfg : Config)
    (yes : Bool) (s0 : σ) : ClearResult σ :=
  if env.txStartOk = false then
    ⟨[Event.beginTx IsolationLevel.serializable], Except.error "failed to start transaction", s0⟩
  else
    if env.inventoryOk = false then
      ⟨[Event.beginTx IsolationLevel.serializable, Event.queryTableNames],
        Except.error "failed to read table inventory", s0⟩
    else
      let front := [Event.beginTx IsolationLevel.serializable, Event.queryTableNames]
        ++ env.tables.map Event.queryRowCount
      if yes = true then
        clearFinish applyStmt env cfg s0 front
      else
        match prompt_for_yes env.input with
        | Except.ok _ => clearFinish applyStmt env cfg s0 (front ++ [Event.promptForYes])
        | Except.error e => ⟨front ++ [Event.promptForYes], Except.error e, s0⟩

/-- The kinds of `std::io::Error` distinguished (or lumped together) by
`fork_command`; variants beyond the first two all take the catch-all arm. -/
inductive IOErrorKind
  | notFound
  | permissionDenied
  | interrupted
  | outOfMemory
  | otherKind
  deriving DecidableEq

/-- The context message `fork_command` attaches per error kind, naming the
program (verbatim from the source, including the spelling of occured). -/
def forkErrorMessage (program : String) (k : IOErrorKind) : String :=
  match k with
  | IOErrorKind.notFound => "`" ++ program ++ "` was not found in your `PATH`"
  | IOErrorKind.permissionDenied =>
      "you don" ++ aposStr ++ "t have sufficient permissions to execute `" ++ program ++ "`"
  | _ => "an error occured while trying to execute `" ++ program ++ "`"

/-- Overall outcome of a dispatched command: success, a failure value, or
replacement of the current process image by an external program (`exec`
succeeded, so the subsystem never returns). -/
inductive Outcome
  | ok
  | error (msg : String)
  | execed (program : String) (args : List (List Nat))
  deriving DecidableEq

/-- Model of `fork_command`: issue the `exec`; on success the process is
replaced, otherwise classify the `io::Error` kind into one of three
messages naming the program. -/
def fork_command (program : String) (args : List (List Nat))
    (execErr : Option IOErrorKind) : List Event × Outcome :=
  ([Event.execProcess program args],
    match execErr with
    | none => Outcome.execed program args
    | some k => Outcome.error (forkErrorMessage program k))

/-- Model of `console`: exec `psql` with just the connection URI. -/
def console (config : DbConfig) (execErr : Option IOErrorKind) : List Event × Outcome :=
  fork_command "psql" [connection_uri config] execErr

/-- Model of `dump`: exec `pg_dump` with dbname, custom format and file. -/
def dump (config : DbConfig) (path : List Nat) (execErr : Option IOErrorKind) :
    List Event × Outcome :=
  fork_command "pg_dump"
    [litBytes "--dbname", connection_uri config,
      litBytes "--format", litBytes "custom",
      litBytes "--file", path]
    execErr

/-- Model of `restore`: exec `pg_restore` against the URI of the
administrative `postgres` database (the config with its `database` field
replaced), with clean/if-exists/create and the dump path. -/
def restore (config : DbConfig) (dumpPath : List Nat) (execErr : Option IOErrorKind) :
    List Event × Outcome :=
  fork_command "pg_restore"
    [litBytes "--dbname", connection_uri { config with database := litBytes "postgres" },
      litBytes "--clean", litBytes "--if-exists", litBytes "--create", dumpPath]
    execErr

/-- Environment for one dispatcher invocation: the clear environment plus
oracles for pool creation, pool checkout, the exec outcome of fork
commands, script reading and execution, migration and overwrite success. -/
structure RunEnv where
  clearEnv : ClearEnv
  execErr : Option IOErrorKind
  poolCreateOk : Bool
  poolGetOk : Bool
  scriptReadOk : Bool
  scriptExecOk : Bool
  migrateOk : Bool
  overwriteOk : Bool

/-- Result of one dispatcher invocation. -/
structure RunResultT (σ : Type) where
  trace : List Event
  outcome : Outcome
  db : σ

/-- Conversion of a `Result<()>` into the dispatcher outcome. -/
def outcomeOfResult : Except String Unit → Outcome
  | Except.ok _ => Outcome.ok
  | Except.error e => Outcome.error e

/-- Create the pool and check one connection out of it, then continue; both
steps are fallible and abort via `?` in the source. -/
def withPool {σ : Type} (env : RunEnv) (s0 : σ) (k : List Event → RunResultT σ) :
    RunResultT σ :=
  if env.poolCreateOk = false then
    ⟨[Event.createPool], Outcome.error "failed to create database pool", s0⟩
  else
    if env.poolGetOk = false then
      ⟨[Event.createPool, Event.getConn], Outcome.error "failed to get database connection", s0⟩
    else
      k [Event.createPool, Event.getConn]

/-- Model of the dispatcher `run`. Console, dump and restore fork into an
external process straight away — the source returns for them before the
pool is even created — while every other variant first creates the pool and
checks out one connection, then dispatches. The migration, script and
overwrite collaborators are out of scope and appear as single events; their
effect on the store is not modelled. -/
def run {σ : Type} (applyStmt : σ → List Nat → σ) (env : RunEnv) (cfg : Config)
    (cmd : DbCommand) (s0 : σ) : RunResultT σ :=
  match cmd with
  | DbCommand.console =>
    let r := console cfg.db env.execErr
    ⟨r.1, r.2, s0⟩
  | DbCommand.dump path =>
    let r := dump cfg.db path env.execErr
    ⟨r.1, r.2, s0⟩
  | DbCommand.restore d =>
    let r := restore cfg.db d env.execErr
    ⟨r.1, r.2, s0⟩
  | DbCommand.clear options =>
    withPool env s0 fun front =>
      let c := clear applyStmt env.clearEnv cfg options.yes_absolutely_clear_db s0
      ⟨front ++ c.trace, outcomeOfResult c.result, c.db⟩
  | DbCommand.migrate =>
    withPool env s0 fun front =>
      ⟨front ++ [Event.migrate],
        if env.migrateOk then Outcome.ok else Outcome.error "failed to run migrations", s0⟩
  | DbCommand.reset options =>
    withPool env s0 fun front =>
      let c := clear applyStmt env.clearEnv cfg options.yes_absolutely_clear_db s0
      match c.result with
      | Except.error e => ⟨front ++ c.trace, Outcome.error e, c.db⟩
      | Except.ok _ =>
        ⟨front ++ c.trace ++ [Event.migrate],
          if env.migrateOk then Outcome.ok else Outcome.error "failed to run migrations", c.db⟩
  | DbCommand.script path =>
    withPool env s0 fun front =>
      if env.scriptReadOk = false then
        ⟨front ++ [Event.readScriptFile path], Outcome.error "failed to read script file", s0⟩
      else
        if env.scriptExecOk = false then
          ⟨front ++ [Event.readScriptFile path, Event.batchExecute],
            Outcome.error "failed to execute script", s0⟩
        else
          ⟨front ++ [Event.readScriptFile path, Event.batchExecute], Outcome.ok, s0⟩
  | DbCommand.overwriteMigrations =>
    withPool env s0 fun front =>
      ⟨front ++ [Event.overwriteMigrations],
        if env.overwriteOk then Outcome.ok else Outcome.error "failed to overwrite migrations", s0⟩

/-- The DbConfig value of the test scenario in the spec. -/
def scenarioConfig : DbConfig :=
  ⟨litBytes "localhost", 5432, litBytes "ad min", litBytes "p@ss/w0rd", litBytes "tobira"⟩

/-- The commands that fork into an external process instead of taking a
pooled connection. -/
def isForkCmd : DbCommand → Bool
  | DbCommand.console => true
  | DbCommand.dump _ => true
  | DbCommand.restore _ => true
  | _ => false

/-- A concrete store model for witnesses: count applied statements. -/
def natApply : Nat → List Nat → Nat := fun s _ => s + 1

/-- A concrete configuration for witnesses. -/
def demoConfig : Config := ⟨scenarioConfig⟩

/-- Clear environment where every external step succeeds and the operator
types yes. -/
def yesClearEnv : ClearEnv := ⟨true, true, [litBytes "realms"], litBytes "yes", true, true, true⟩

/-- Clear environment where every external step succeeds but the operator
types no. -/
def noClearEnv : ClearEnv := ⟨true, true, [litBytes "realms"], litBytes "no", true, true, true⟩

/-- Clear environment where everything succeeds except clearing the search
index. -/
def meiliFailClearEnv : ClearEnv :=
  ⟨true, true, [litBytes "realms"], litBytes "yes", true, true, false⟩

/-- Run environment around `yesClearEnv` with every oracle succeeding. -/
def yesRunEnv : RunEnv := ⟨yesClearEnv, none, true, true, true, true, true, true⟩

/-- Run environment around `noClearEnv` with every oracle succeeding. -/
def noRunEnv : RunEnv := ⟨noClearEnv, none, true, true, true, true, true, true⟩

/-- Run environment around `meiliFailClearEnv`. -/
def meiliFailRunEnv : RunEnv := ⟨meiliFailClearEnv, none, true, true, true, true, true, true⟩

/-- The constructors an event of a `clear` trace can have. -/
def isClearEvent : Event → Bool
  | Event.beginTx _ => true
  | Event.queryTableNames => true
  | Event.queryRowCount _ => true
  | Event.promptForYes => true
  | Event.execSql _ => true
  | Event.commit => true
  | Event.meiliConnect => true
  | Event.meiliClear => true
  | _ => false

/- Theorems. -/

theorem clear_txFail {σ : Type} (applyStmt : σ → List Nat → σ) (env : ClearEnv) (cfg : Config)
    (yes : Bool) (s0 : σ) (h : env.txStartOk = false) :
    clear applyStmt env cfg yes s0 =
      ⟨[Event.beginTx IsolationLevel.serializable],
        Except.error "failed to start transaction", s0⟩ := by
  simp [clear, h]

theorem clear_invFail {σ : Type} (applyStmt : σ → List Nat → σ) (env : ClearEnv) (cfg : Config)
    (yes : Bool) (s0 : σ) (h1 : env.txStartOk = true) (h2 : env.inventoryOk = false) :
    clear applyStmt env cfg yes s0 =
      ⟨[Event.beginTx IsolationLevel.serializable, Event.queryTableNames],
        Except.error "failed to read table inventory", s0⟩ := by
  simp [clear, h1, h2]

theorem clear_declined {σ : Type} (applyStmt : σ → List Nat → σ) (env : ClearEnv) (cfg : Config)
    (s0 : σ) (h1 : env.txStartOk = true) (h2 : env.inventoryOk = true)
    (h3 : env.input ≠ litBytes "yes") :
    clear applyStmt env cfg false s0 =
      ⟨[Event.beginTx IsolationLevel.serializable, Event.queryTableNames]
          ++ env.tables.map Event.queryRowCount ++ [Event.promptForYes],
        Except.error "user did not confirm the action", s0⟩ := by
  simp [clear, h1, h2, prompt_for_yes, h3]

theorem clear_confirmed {σ : Type} (applyStmt : σ → List Nat → σ) (env : ClearEnv) (cfg : Config)
    (yes : Bool) (s0 : σ) (h1 : env.txStartOk = true) (h2 : env.inventoryOk = true)
    (h3 : yes = true ∨ env.input = litBytes "yes") :
    clear applyStmt env cfg yes s0 =
      clearFinish applyStmt env cfg s0
        ([Event.beginTx IsolationLevel.serializable, Event.queryTableNames]
          ++ env.tables.map Event.queryRowCount
          ++ (if yes then [] else [Event.promptForYes])) := by
  by_cases hy : yes = true
  · subst hy
    simp [clear, h1, h2]
  · simp at hy
    subst hy
    rcases h3 with h3 | h3
    · cases h3
    · simp [clear, h1, h2, prompt_for_yes, h3]

theorem clear_trace_isClearEvent {σ : Type} (applyStmt : σ → List Nat → σ) (env : ClearEnv)
    (cfg : Config) (yes : Bool) (s0 : σ) :
    ∀ e ∈ (clear applyStmt env cfg yes s0).trace, isClearEvent e = true := by
  intro e he
  unfold clear clearFinish prompt_for_yes at he
  repeat' split at he
  all_goals aesop

theorem not_mem_clear_trace {σ : Type} (applyStmt : σ → List Nat → σ) (env : ClearEnv)
    (cfg : Config) (yes : Bool) (s0 : σ) (e : Event) (hne : isClearEvent e = false) :
    e ∉ (clear applyStmt env cfg yes s0).trace := by
  intro he
  have := clear_trace_isClearEvent applyStmt env cfg yes s0 e he
  rw [hne] at this
  exact Bool.false_ne_true this

theorem percentDecode_cons_ne (b : Nat) (l : List Nat) (hb : b ≠ 37) :
    percentDecode (b :: l) = (percentDecode l).map (fun t => b :: t) := by
  match l with
  | [] => simp [percentDecode, hb]
  | [h] => simp [percentDecode, hb]
  | h :: l2 :: rest => simp [percentDecode, hb]

theorem percentDecode_escape (h l : Nat) (rest : List Nat) :
    percentDecode (37 :: h :: l :: rest) =
      if isHexDigitByte h && isHexDigitByte l then
        (percentDecode rest).map (fun t => (hexVal h * 16 + hexVal l) :: t)
      else none := by
  simp [percentDecode]

theorem escapedForm_cons_ne (b : Nat) (l : List Nat) (hb : b ≠ 37) :
    escapedForm (b :: l) = (isAlnumByte b && escapedForm l) := by
  match l with
  | [] => simp [escapedForm, hb]
  | [h] => simp [escapedForm, hb]
  | h :: l2 :: rest => simp [escapedForm, hb]

theorem escapedForm_escape (h l : Nat) (rest : List Nat) :
    escapedForm (37 :: h :: l :: rest) =
      (isHexDigitByte h && isHexDigitByte l && escapedForm rest) := by
  simp [escapedForm]

theorem hexDigit_isHex : ∀ n < 16, isHexDigitByte (hexDigitByte n) = true := by decide

theorem hexDigit_val : ∀ n < 16, hexVal (hexDigitByte n) = n := by decide

theorem isAlnum_not_37 (b : Nat) (h : isAlnumByte b = true) : b ≠ 37 := by
  intro he
  subst he
  simp [isAlnumByte] at h

/-- Decoding inverts encoding on byte lists. -/
theorem percentDecode_percentEncode (s : List Nat) (h : ∀ b ∈ s, b < 256) :
    percentDecode (percentEncode s) = some s := by
  induction s with
  | nil => rfl
  | cons b rest ih =>
    have hb : b < 256 := h b (List.mem_cons_self b rest)
    have hrest : ∀ x ∈ rest, x < 256 := fun x hx => h x (List.mem_cons_of_mem b hx)
    have ihr := ih hrest
    by_cases ha : isAlnumByte b = true
    · have hne : b ≠ 37 := isAlnum_not_37 b ha
      simp [percentEncode, ha, percentDecode_cons_ne b _ hne, ihr]
    · have hdiv : b / 16 < 16 := by omega
      have hmod : b % 16 < 16 := by omega
      have hsum : hexVal (hexDigitByte (b / 16)) * 16 + hexVal (hexDigitByte (b % 16)) = b := by
        rw [hexDigit_val _ hdiv, hexDigit_val _ hmod]
        omega
      simp [percentEncode, ha, percentDecode_escape,
        hexDigit_isHex _ hdiv, hexDigit_isHex _ hmod, ihr, hsum]

/-- Encoding puts every byte list into escaped form. -/
theorem percentEncode_escapedForm (s : List Nat) (h : ∀ b ∈ s, b < 256) :
    escapedForm (percentEncode s) = true := by
  induction s with
  | nil => rfl
  | cons b rest ih =>
    have hb : b < 256 := h b (List.mem_cons_self b rest)
    have hrest : ∀ x ∈ rest, x < 256 := fun x hx => h x (List.mem_cons_of_mem b hx)
    have ihr := ih hrest
    by_cases ha : isAlnumByte b = true
    · have hne : b ≠ 37 := isAlnum_not_37 b ha
      simp [percentEncode, ha, escapedForm_cons_ne b _ hne, ihr]
    · have hdiv : b / 16 < 16 := by omega
      have hmod : b % 16 < 16 := by omega
      simp [percentEncode, ha, escapedForm_escape,
        hexDigit_isHex _ hdiv, hexDigit_isHex _ hmod, ihr]

/-- C1: with skipConfirmation left off and an operator input line different
from the literal token yes, the clear operation executes none of the
destructive SQL statements, never commits (so the transaction is
discarded), and the store state is exactly what it was before the call. -/
theorem clear_unconfirmed_no_state_change {σ : Type} (applyStmt : σ → List Nat → σ)
    (env : ClearEnv) (cfg : Config) (s0 : σ) (h : env.input ≠ litBytes "yes") :
    (∀ s, Event.execSql s ∉ (clear applyStmt env cfg false s0).trace) ∧
    Event.commit ∉ (clear applyStmt env cfg false s0).trace ∧
    (clear applyStmt env cfg false s0).db = s0 := by
  by_cases h1 : env.txStartOk = true
  · by_cases h2 : env.inventoryOk = true
    · rw [clear_declined applyStmt env cfg s0 h1 h2 h]
      simp
    · simp at h2
      rw [clear_invFail applyStmt env cfg false s0 h1 h2]
      simp
  · simp at h1
    rw [clear_txFail applyStmt env cfg false s0 h1]
    simp

/-- Witness for C1 at a concrete input: operator answers no. -/
theorem clear_unconfirmed_no_state_change_witness :
    noClearEnv.input ≠ litBytes "yes" ∧
    Event.commit ∉ (clear natApply noClearEnv demoConfig false 0).trace ∧
    (clear natApply noClearEnv demoConfig false 0).db = 0 := by
  refine ⟨by decide, ?_, ?_⟩
  · exact (clear_unconfirmed_no_state_change natApply noClearEnv demoConfig 0 (by decide)).2.1
  · exact (clear_unconfirmed_no_state_change natApply noClearEnv demoConfig 0 (by decide)).2.2

/-- C2: percent-decoding each encoded field of the connection URI
reproduces the original user, password and database exactly; each encoded
field is in escaped form, so every byte outside the alphanumerics appears
as a percent escape; and the URI inserts host and port verbatim. -/
theorem connection_uri_fields_roundtrip (config : DbConfig)
    (hu : ∀ b ∈ config.user, b < 256)
    (hp : ∀ b ∈ config.password, b < 256)
    (hd : ∀ b ∈ config.database, b < 256) :
    percentDecode (percentEncode config.user) = some config.user ∧
    percentDecode (percentEncode config.password) = some config.password ∧
    percentDecode (percentEncode config.database) = some config.database ∧
    escapedForm (percentEncode config.user) = true ∧
    escapedForm (percentEncode config.password) = true ∧
    escapedForm (percentEncode config.database) = true ∧
    connection_uri config =
      litBytes "postgresql://" ++ percentEncode config.user ++ litBytes ":"
        ++ percentEncode config.password ++ litBytes "@" ++ config.host ++ litBytes ":"
        ++ natBytes config.port ++ litBytes "/" ++ percentEncode config.database :=
  ⟨percentDecode_percentEncode _ hu, percentDecode_percentEncode _ hp,
    percentDecode_percentEncode _ hd, percentEncode_escapedForm _ hu,
    percentEncode_escapedForm _ hp, percentEncode_escapedForm _ hd, rfl⟩

/-- Witness for C2 at the DbConfig scenario given in the spec. -/
theorem connection_uri_fields_roundtrip_witness :
    (∀ b ∈ scenarioConfig.user, b < 256) ∧
    (∀ b ∈ scenarioConfig.password, b < 256) ∧
    (∀ b ∈ scenarioConfig.database, b < 256) ∧
    percentDecode (percentEncode scenarioConfig.user) = some scenarioConfig.user ∧
    percentDecode (percentEncode scenarioConfig.password) = some scenarioConfig.password ∧
    percentDecode (percentEncode scenarioConfig.database) = some scenarioConfig.database ∧
    escapedForm (percentEncode scenarioConfig.user) = true ∧
    escapedForm (percentEncode scenarioConfig.password) = true ∧
    escapedForm (percentEncode scenarioConfig.database) = true ∧
    connection_uri scenarioConfig =
      litBytes "postgresql://" ++ percentEncode scenarioConfig.user ++ litBytes ":"
        ++ percentEncode scenarioConfig.password ++ litBytes "@" ++ scenarioConfig.host
        ++ litBytes ":" ++ natBytes scenarioConfig.port ++ litBytes "/"
        ++ percentEncode scenarioConfig.database :=
  ⟨by decide, by decide, by decide,
    connection_uri_fields_roundtrip scenarioConfig (by decide) (by decide) (by decide)⟩

theorem clear_unconfirmed_result_error {σ : Type} (applyStmt : σ → List Nat → σ)
    (env : ClearEnv) (cfg : Config) (s0 : σ) (h : env.input ≠ litBytes "yes") :
    ∃ m, (clear applyStmt env cfg false s0).result = Except.error m := by
  by_cases h1 : env.txStartOk = true
  · by_cases h2 : env.inventoryOk = true
    · exact ⟨_, by rw [clear_declined applyStmt env cfg s0 h1 h2 h]⟩
    · simp at h2
      exact ⟨_, by rw [clear_invFail applyStmt env cfg false s0 h1 h2]⟩
  · simp at h1
    exact ⟨_, by rw [clear_txFail applyStmt env cfg false s0 h1]⟩

/-- Counterexample for C4 as stated: at a concrete declined confirmation
the clear operation does surface a failure value (the abort travels through
the question-mark operator as an error), so the decline is not a clean
non-error return. -/
theorem clear_declined_not_clean_return_cex :
    (clear natApply noClearEnv demoConfig false 0).result =
        Except.error "user did not confirm the action" ∧
    (clear natApply noClearEnv demoConfig false 0).result ≠ Except.ok () := by
  have h : (clear natApply noClearEnv demoConfig false 0).result =
      Except.error "user did not confirm the action" := rfl
  refine ⟨h, ?_⟩
  rw [h]
  simp

/-- C4 amended: declining the confirmation aborts with zero side effects —
no destructive statement is issued, the transaction is never committed, and
the store is unchanged — but the abort is surfaced as a failure value (an
error result) rather than by a clean early success return. -/
theorem clear_declined_aborts_with_failure_value {σ : Type} (applyStmt : σ → List Nat → σ)
    (env : ClearEnv) (cfg : Config) (s0 : σ) (h1 : env.txStartOk = true)
    (h2 : env.inventoryOk = true) (h3 : env.input ≠ litBytes "yes") :
    (clear applyStmt env cfg false s0).result =
        Except.error "user did not confirm the action" ∧
    (∀ s, Event.execSql s ∉ (clear applyStmt env cfg false s0).trace) ∧
    Event.commit ∉ (clear applyStmt env cfg false s0).trace ∧
    (clear applyStmt env cfg false s0).db = s0 := by
  rw [clear_declined applyStmt env cfg s0 h1 h2 h3]
  simp

/-- Witness for the amended C4 at a concrete declined confirmation. -/
theorem clear_declined_aborts_with_failure_value_witness :
    noClearEnv.txStartOk = true ∧ noClearEnv.inventoryOk = true ∧
    noClearEnv.input ≠ litBytes "yes" ∧
    (clear natApply noClearEnv demoConfig false 0).result =
        Except.error "user did not confirm the action" ∧
    (clear natApply noClearEnv demoConfig false 0).db = 0 := by
  refine ⟨rfl, rfl, by decide, ?_, ?_⟩
  · exact (clear_declined_aborts_with_failure_value natApply noClearEnv demoConfig 0
      rfl rfl (by decide)).1
  · exact (clear_declined_aborts_with_failure_value natApply noClearEnv demoConfig 0
      rfl rfl (by decide)).2.2.2

/-- C5: an invocation of clear that reaches the destructive phase issues,
inside the single transaction opened with serializable isolation, exactly
the five statements in source order and then the commit; whatever follows
contains no further SQL statement, no commit and no transaction begin. -/
theorem clear_destructive_phase_exact {σ : Type} (applyStmt : σ → List Nat → σ)
    (env : ClearEnv) (cfg : Config) (yes : Bool) (s0 : σ) (h1 : env.txStartOk = true)
    (h2 : env.inventoryOk = true) (h3 : yes = true ∨ env.input = litBytes "yes") :
    ∃ tail,
      (clear applyStmt env cfg yes s0).trace =
        [Event.beginTx IsolationLevel.serializable, Event.queryTableNames]
          ++ env.tables.map Event.queryRowCount
          ++ (if yes then [] else [Event.promptForYes])
          ++ [Event.execSql (litBytes "drop schema public cascade"),
              Event.execSql (litBytes "create schema public"),
              Event.execSql (litBytes "grant all on schema public to " ++ cfg.db.user),
              Event.execSql (litBytes "grant all on schema public to public"),
              Event.execSql (litBytes "comment on schema public is " ++ aposByte
                ++ litBytes "standard public schema" ++ aposByte),
              Event.commit]
          ++ tail ∧
      (∀ s, Event.execSql s ∉ tail) ∧ Event.commit ∉ tail ∧
      (∀ iso, Event.beginTx iso ∉ tail) := by
  rw [clear_confirmed applyStmt env cfg yes s0 h1 h2 h3]
  cases hc : env.commitOk with
  | false =>
    exact ⟨[], by simp [clearFinish, hc, clearStmts], by simp, by simp, by simp⟩
  | true =>
    cases hm : env.meiliConnectOk with
    | false =>
      exact ⟨[Event.meiliConnect], by simp [clearFinish, hc, hm, clearStmts],
        by simp, by simp, by simp⟩
    | true =>
      cases hk : env.meiliClearOk with
      | false =>
        exact ⟨[Event.meiliConnect, Event.meiliClear],
          by simp [clearFinish, hc, hm, hk, clearStmts], by simp, by simp, by simp⟩
      | true =>
        exact ⟨[Event.meiliConnect, Event.meiliClear],
          by simp [clearFinish, hc, hm, hk, clearStmts], by simp, by simp, by simp⟩

/-- Witness for C5 with the confirmation skipped by flag. -/
theorem clear_destructive_phase_exact_witness :
    yesClearEnv.txStartOk = true ∧ yesClearEnv.inventoryOk = true ∧
    (true = true ∨ yesClearEnv.input = litBytes "yes") ∧
    (∃ tail,
      (clear natApply yesClearEnv demoConfig true 0).trace =
        [Event.beginTx IsolationLevel.serializable, Event.queryTableNames]
          ++ yesClearEnv.tables.map Event.queryRowCount
          ++ (if true then [] else [Event.promptForYes])
          ++ [Event.execSql (litBytes "drop schema public cascade"),
              Event.execSql (litBytes "create schema public"),
              Event.execSql (litBytes "grant all on schema public to "
                ++ demoConfig.db.user),
              Event.execSql (litBytes "grant all on schema public to public"),
              Event.execSql (litBytes "comment on schema public is " ++ aposByte
                ++ litBytes "standard public schema" ++ aposByte),
              Event.commit]
          ++ tail ∧
      (∀ s, Event.execSql s ∉ tail) ∧ Event.commit ∉ tail ∧
      (∀ iso, Event.beginTx iso ∉ tail)) :=
  ⟨rfl, rfl, Or.inl rfl,
    clear_destructive_phase_exact natApply yesClearEnv demoConfig true 0 rfl rfl (Or.inl rfl)⟩

/-- C6: restore execs the external tool with a URI whose database part is
the literal administrative name postgres — user, password, host and port
are taken from the config unchanged — and the produced invocation does not
depend on the configured target database name at all. -/
theorem restore_targets_admin_database (config : DbConfig) (dumpPath : List Nat)
    (execErr : Option IOErrorKind) :
    (restore config dumpPath execErr).1 =
      [Event.execProcess "pg_restore"
        [litBytes "--dbname",
          litBytes "postgresql://" ++ percentEncode config.user ++ litBytes ":"
            ++ percentEncode config.password ++ litBytes "@" ++ config.host ++ litBytes ":"
            ++ natBytes config.port ++ litBytes "/" ++ litBytes "postgres",
          litBytes "--clean", litBytes "--if-exists", litBytes "--create", dumpPath]] ∧
    (∀ d, restore { config with database := d } dumpPath execErr =
      restore config dumpPath execErr) := by
  have hpg : percentEncode (litBytes "postgres") = litBytes "postgres" := by decide
  constructor
  · simp [restore, fork_command, connection_uri, hpg]
  · intro d
    rfl

/-- C9: when the exec call itself fails, the outcome is a failure whose
message names the offending program, and the cause is classified into
exactly one of three message forms — not found on the search path,
insufficient permission, or an unspecified execution error. -/
theorem fork_exec_failure_classified (program : String) (args : List (List Nat))
    (k : IOErrorKind) :
    (fork_command program args (some k)).2 = Outcome.error (forkErrorMessage program k) ∧
    (∃ front back, forkErrorMessage program k = front ++ program ++ back) ∧
    (forkErrorMessage program k = "`" ++ program ++ "` was not found in your `PATH`" ∨
      forkErrorMessage program k =
        "you don" ++ aposStr ++ "t have sufficient permissions to execute `"
          ++ program ++ "`" ∨
      forkErrorMessage program k =
        "an error occured while trying to execute `" ++ program ++ "`") := by
  refine ⟨rfl, ?_, ?_⟩
  · cases k
    · exact ⟨"`", "` was not found in your `PATH`", rfl⟩
    · exact ⟨"you don" ++ aposStr ++ "t have sufficient permissions to execute `", "`",
        by simp [forkErrorMessage, String.append_assoc]⟩
    · exact ⟨"an error occured while trying to execute `", "`", rfl⟩
    · exact ⟨"an error occured while trying to execute `", "`", rfl⟩
    · exact ⟨"an error occured while trying to execute `", "`", rfl⟩
  · cases k
    · exact Or.inl rfl
    · exact Or.inr (Or.inl rfl)
    · exact Or.inr (Or.inr rfl)
    · exact Or.inr (Or.inr rfl)
    · exact Or.inr (Or.inr rfl)

/-- C3: reset is clear followed by migrate exactly when clear completed: on
a completed clear the dispatcher appends the migrate step to the clear
trace, while a declined confirmation makes reset abort with a failure value
and no migrate step at all. -/
theorem reset_migrate_only_after_completed_clear {σ : Type} (applyStmt : σ → List Nat → σ)
    (env : RunEnv) (cfg : Config) (yes : Bool) (s0 : σ) :
    ((env.poolCreateOk = true ∧ env.poolGetOk = true ∧
        (clear applyStmt env.clearEnv cfg yes s0).result = Except.ok ()) →
      run applyStmt env cfg (DbCommand.reset ⟨yes⟩) s0 =
        ⟨[Event.createPool, Event.getConn]
            ++ (clear applyStmt env.clearEnv cfg yes s0).trace ++ [Event.migrate],
          if env.migrateOk then Outcome.ok else Outcome.error "failed to run migrations",
          (clear applyStmt env.clearEnv cfg yes s0).db⟩) ∧
    ((yes = false ∧ env.clearEnv.input ≠ litBytes "yes") →
      Event.migrate ∉ (run applyStmt env cfg (DbCommand.reset ⟨yes⟩) s0).trace ∧
      ∃ m, (run applyStmt env cfg (DbCommand.reset ⟨yes⟩) s0).outcome = Outcome.error m) := by
  constructor
  · rintro ⟨hp1, hp2, hok⟩
    simp [run, withPool, hp1, hp2, hok]
  · rintro ⟨hy, hin⟩
    subst hy
    by_cases hp1 : env.poolCreateOk = true
    · by_cases hp2 : env.poolGetOk = true
      · obtain ⟨m, hm⟩ := clear_unconfirmed_result_error applyStmt env.clearEnv cfg s0 hin
        have hmig := not_mem_clear_trace applyStmt env.clearEnv cfg false s0 Event.migrate rfl
        refine ⟨?_, m, ?_⟩
        · simp [run, withPool, hp1, hp2, hm, hmig]
        · simp [run, withPool, hp1, hp2, hm]
      · simp at hp2
        constructor
        · simp [run, withPool, hp1, hp2]
        · exact ⟨"failed to get database connection", by simp [run, withPool, hp1, hp2]⟩
    · simp at hp1
      constructor
      · simp [run, withPool, hp1]
      · exact ⟨"failed to create database pool", by simp [run, withPool, hp1]⟩

/-- Witness for C3: one completed reset (confirmation skipped), one reset
declined by the operator. -/
theorem reset_migrate_only_after_completed_clear_witness :
    (yesRunEnv.poolCreateOk = true ∧ yesRunEnv.poolGetOk = true ∧
      (clear natApply yesRunEnv.clearEnv demoConfig true 0).result = Except.ok ()) ∧
    run natApply yesRunEnv demoConfig (DbCommand.reset ⟨true⟩) 0 =
      ⟨[Event.createPool, Event.getConn]
          ++ (clear natApply yesRunEnv.clearEnv demoConfig true 0).trace ++ [Event.migrate],
        Outcome.ok, (clear natApply yesRunEnv.clearEnv demoConfig true 0).db⟩ ∧
    (false = false ∧ noRunEnv.clearEnv.input ≠ litBytes "yes") ∧
    Event.migrate ∉ (run natApply noRunEnv demoConfig (DbCommand.reset ⟨false⟩) 0).trace ∧
    (∃ m, (run natApply noRunEnv demoConfig (DbCommand.reset ⟨false⟩) 0).outcome =
      Outcome.error m) := by
  have hok : (clear natApply yesRunEnv.clearEnv demoConfig true 0).result = Except.ok () := rfl
  refine ⟨⟨rfl, rfl, hok⟩, ?_, ⟨rfl, by decide⟩, ?_, ?_⟩
  · exact (reset_migrate_only_after_completed_clear natApply yesRunEnv demoConfig true 0).1
      ⟨rfl, rfl, hok⟩
  · exact ((reset_migrate_only_after_completed_clear natApply noRunEnv demoConfig false 0).2
      ⟨rfl, by decide⟩).1
  · exact ((reset_migrate_only_after_completed_clear natApply noRunEnv demoConfig false 0).2
      ⟨rfl, by decide⟩).2

/-- C7: console, dump and restore fork into the external process with the
pool never created and no connection checked out; every other command
creates the pool and checks out exactly one connection first, and the
dispatched tail acquires no further one. -/
theorem dispatcher_pool_discipline {σ : Type} (applyStmt : σ → List Nat → σ) (env : RunEnv)
    (cfg : Config) (cmd : DbCommand) (s0 : σ) :
    (isForkCmd cmd = true →
      Event.createPool ∉ (run applyStmt env cfg cmd s0).trace ∧
      Event.getConn ∉ (run applyStmt env cfg cmd s0).trace ∧
      ∃ prog args, Event.execProcess prog args ∈ (run applyStmt env cfg cmd s0).trace) ∧
    (isForkCmd cmd = false → env.poolCreateOk = true → env.poolGetOk = true →
      ∃ rest,
        (run applyStmt env cfg cmd s0).trace = Event.createPool :: Event.getConn :: rest ∧
        Event.createPool ∉ rest ∧ Event.getConn ∉ rest) := by
  cases cmd with
  | console =>
    refine ⟨fun _ => ⟨?_, ?_, "psql", [connection_uri cfg.db], ?_⟩, fun h => ?_⟩
    · simp [run, console, fork_command]
    · simp [run, console, fork_command]
    · simp [run, console, fork_command]
    · simp [isForkCmd] at h
  | dump p =>
    refine ⟨fun _ => ⟨?_, ?_, "pg_dump", ?_, ?_⟩, fun h => ?_⟩
    · simp [run, dump, fork_command]
    · simp [run, dump, fork_command]
    · exact [litBytes "--dbname", connection_uri cfg.db,
        litBytes "--format", litBytes "custom", litBytes "--file", p]
    · simp [run, dump, fork_command]
    · simp [isForkCmd] at h
  | restore d =>
    refine ⟨fun _ => ⟨?_, ?_, "pg_restore", ?_, ?_⟩, fun h => ?_⟩
    · simp [run, restore, fork_command]
    · simp [run, restore, fork_command]
    · exact [litBytes "--dbname",
        connection_uri { cfg.db with database := litBytes "postgres" },
        litBytes "--clean", litBytes "--if-exists", litBytes "--create", d]
    · simp [run, restore, fork_command]
    · simp [isForkCmd] at h
  | clear options =>
    refine ⟨fun h => ?_, fun _ hp1 hp2 => ?_⟩
    · simp [isForkCmd] at h
    · refine ⟨(clear applyStmt env.clearEnv cfg options.yes_absolutely_clear_db s0).trace,
        ?_, ?_, ?_⟩
      · simp [run, withPool, hp1, hp2]
      · exact not_mem_clear_trace applyStmt env.clearEnv cfg _ s0 Event.createPool rfl
      · exact not_mem_clear_trace applyStmt env.clearEnv cfg _ s0 Event.getConn rfl
  | migrate =>
    refine ⟨fun h => ?_, fun _ hp1 hp2 => ⟨[Event.migrate], ?_, ?_, ?_⟩⟩
    · simp [isForkCmd] at h
    · simp [run, withPool, hp1, hp2]
    · simp
    · simp
  | reset options =>
    refine ⟨fun h => ?_, fun _ hp1 hp2 => ?_⟩
    · simp [isForkCmd] at h
    · have hcp := not_mem_clear_trace applyStmt env.clearEnv cfg
        options.yes_absolutely_clear_db s0 Event.createPool rfl
      have hgc := not_mem_clear_trace applyStmt env.clearEnv cfg
        options.yes_absolutely_clear_db s0 Event.getConn rfl
      cases hres : (clear applyStmt env.clearEnv cfg options.yes_absolutely_clear_db s0).result
        with
      | error m =>
        refine ⟨(clear applyStmt env.clearEnv cfg options.yes_absolutely_clear_db s0).trace,
          ?_, hcp, hgc⟩
        simp [run, withPool, hp1, hp2, hres]
      | ok u =>
        refine ⟨(clear applyStmt env.clearEnv cfg options.yes_absolutely_clear_db s0).trace
          ++ [Event.migrate], ?_, ?_, ?_⟩
        · simp [run, withPool, hp1, hp2, hres]
        · simp [hcp]
        · simp [hgc]
  | script p =>
    refine ⟨fun h => ?_, fun _ hp1 hp2 => ?_⟩
    · simp [isForkCmd] at h
    · by_cases hr : env.scriptReadOk = true
      · by_cases hx : env.scriptExecOk = true
        · exact ⟨[Event.readScriptFile p, Event.batchExecute],
            by simp [run, withPool, hp1, hp2, hr, hx], by simp, by simp⟩
        · simp at hx
          exact ⟨[Event.readScriptFile p, Event.batchExecute],
            by simp [run, withPool, hp1, hp2, hr, hx], by simp, by simp⟩
      · simp at hr
        exact ⟨[Event.readScriptFile p],
          by simp [run, withPool, hp1, hp2, hr], by simp, by simp⟩
  | overwriteMigrations =>
    refine ⟨fun h => ?_, fun _ hp1 hp2 => ⟨[Event.overwriteMigrations], ?_, ?_, ?_⟩⟩
    · simp [isForkCmd] at h
    · simp [run, withPool, hp1, hp2]
    · simp
    · simp

/-- Witness for C7: the console command forks without pool events, the
migrate command acquires exactly one pooled connection first. -/
theorem dispatcher_pool_discipline_witness :
    isForkCmd DbCommand.console = true ∧
    Event.createPool ∉ (run natApply yesRunEnv demoConfig DbCommand.console 0).trace ∧
    isForkCmd DbCommand.migrate = false ∧
    yesRunEnv.poolCreateOk = true ∧ yesRunEnv.poolGetOk = true ∧
    (∃ rest,
      (run natApply yesRunEnv demoConfig DbCommand.migrate 0).trace =
        Event.createPool :: Event.getConn :: rest ∧
      Event.createPool ∉ rest ∧ Event.getConn ∉ rest) := by
  refine ⟨rfl, ?_, rfl, rfl, rfl, ?_⟩
  · exact ((dispatcher_pool_discipline natApply yesRunEnv demoConfig DbCommand.console 0).1
      rfl).1
  · exact (dispatcher_pool_discipline natApply yesRunEnv demoConfig DbCommand.migrate 0).2
      rfl rfl rfl

/-- C8: the search-index clear happens only in traces whose commit was
issued and succeeded, and the commit precedes it; when the index clear
fails after a successful commit the operation reports that distinct
failure while the committed relational wipe stays applied to the store. -/
theorem search_index_clear_after_commit {σ : Type} (applyStmt : σ → List Nat → σ)
    (env : ClearEnv) (cfg : Config) (yes : Bool) (s0 : σ) :
    (Event.meiliClear ∈ (clear applyStmt env cfg yes s0).trace →
      env.commitOk = true ∧
      List.Sublist [Event.commit, Event.meiliClear]
        (clear applyStmt env cfg yes s0).trace) ∧
    (env.txStartOk = true → env.inventoryOk = true →
      (yes = true ∨ env.input = litBytes "yes") → env.commitOk = true →
      env.meiliConnectOk = true → env.meiliClearOk = false →
      (clear applyStmt env cfg yes s0).result =
          Except.error "failed to clear search index" ∧
      (clear applyStmt env cfg yes s0).db = (clearStmts cfg).foldl applyStmt s0) := by
  constructor
  · intro hmem
    by_cases h1 : env.txStartOk = true
    · by_cases h2 : env.inventoryOk = true
      · by_cases h3 : yes = true ∨ env.input = litBytes "yes"
        · rw [clear_confirmed applyStmt env cfg yes s0 h1 h2 h3] at hmem ⊢
          cases hc : env.commitOk with
          | false => simp [clearFinish, hc] at hmem
          | true =>
            cases hm : env.meiliConnectOk with
            | false => simp [clearFinish, hc, hm] at hmem
            | true =>
              refine ⟨rfl, ?_⟩
              have hfix : List.Sublist [Event.commit, Event.meiliClear]
                  [Event.commit, Event.meiliConnect, Event.meiliClear] :=
                List.Sublist.cons₂ _ (List.Sublist.cons _ (List.Sublist.refl _))
              cases hk : env.meiliClearOk with
              | false =>
                refine List.Sublist.trans hfix (List.IsSuffix.sublist ?_)
                refine ⟨[Event.beginTx IsolationLevel.serializable, Event.queryTableNames]
                  ++ env.tables.map Event.queryRowCount
                  ++ (if yes then [] else [Event.promptForYes])
                  ++ (clearStmts cfg).map Event.execSql, ?_⟩
                simp [clearFinish, hc, hm, hk]
              | true =>
                refine List.Sublist.trans hfix (List.IsSuffix.sublist ?_)
                refine ⟨[Event.beginTx IsolationLevel.serializable, Event.queryTableNames]
                  ++ env.tables.map Event.queryRowCount
                  ++ (if yes then [] else [Event.promptForYes])
                  ++ (clearStmts cfg).map Event.execSql, ?_⟩
                simp [clearFinish, hc, hm, hk]
        · have h4 : yes = false := by
            rcases Bool.eq_false_or_eq_true yes with hy | hy
            · exact absurd (Or.inl hy) h3
            · exact hy
          have hin : env.input ≠ litBytes "yes" := fun hx => h3 (Or.inr hx)
          subst h4
          rw [clear_declined applyStmt env cfg s0 h1 h2 hin] at hmem
          simp at hmem
      · simp at h2
        rw [clear_invFail applyStmt env cfg yes s0 h1 h2] at hmem
        simp at hmem
    · simp at h1
      rw [clear_txFail applyStmt env cfg yes s0 h1] at hmem
      simp at hmem
  · intro h1 h2 h3 hc hm hk
    rw [clear_confirmed applyStmt env cfg yes s0 h1 h2 h3]
    simp [clearFinish, hc, hm, hk]

/-- Witness for C8 at a concrete run whose index clear fails after a
successful commit. -/
theorem search_index_clear_after_commit_witness :
    Event.meiliClear ∈ (clear natApply meiliFailClearEnv demoConfig true 0).trace ∧
    meiliFailClearEnv.commitOk = true ∧
    List.Sublist [Event.commit, Event.meiliClear]
      (clear natApply meiliFailClearEnv demoConfig true 0).trace ∧
    (clear natApply meiliFailClearEnv demoConfig true 0).result =
        Except.error "failed to clear search index" ∧
    (clear natApply meiliFailClearEnv demoConfig true 0).db =
      (clearStmts demoConfig).foldl natApply 0 := by
  have hmem : Event.meiliClear ∈ (clear natApply meiliFailClearEnv demoConfig true 0).trace :=
    by decide
  refine ⟨hmem, ?_, ?_, ?_, ?_⟩
  · exact ((search_index_clear_after_commit natApply meiliFailClearEnv demoConfig true 0).1
      hmem).1
  · exact ((search_index_clear_after_commit natApply meiliFailClearEnv demoConfig true 0).1
      hmem).2
  · exact ((search_index_clear_after_commit natApply meiliFailClearEnv demoConfig true 0).2
      rfl rfl (Or.inl rfl) rfl rfl rfl).1
  · exact ((search_index_clear_after_commit natApply meiliFailClearEnv demoConfig true 0).2
      rfl rfl (Or.inl rfl) rfl rfl rfl).2

/-- C10: when the search-index clear fails after the commit succeeded, the
clear operation returns that failure, so a reset invocation stops before
migrate even though the five destructive statements were committed: the
wiped store state is kept, the commit is in the trace, and no migrate step
runs. -/
theorem reset_after_partial_clear_skips_migrate {σ : Type} (applyStmt : σ → List Nat → σ)
    (env : RunEnv) (cfg : Config) (yes : Bool) (s0 : σ)
    (hp1 : env.poolCreateOk = true) (hp2 : env.poolGetOk = true)
    (h1 : env.clearEnv.txStartOk = true) (h2 : env.clearEnv.inventoryOk = true)
    (h3 : yes = true ∨ env.clearEnv.input = litBytes "yes")
    (hc : env.clearEnv.commitOk = true) (hm : env.clearEnv.meiliConnectOk = true)
    (hk : env.clearEnv.meiliClearOk = false) :
    (run applyStmt env cfg (DbCommand.reset ⟨yes⟩) s0).outcome =
        Outcome.error "failed to clear search index" ∧
    Event.migrate ∉ (run applyStmt env cfg (DbCommand.reset ⟨yes⟩) s0).trace ∧
    Event.commit ∈ (run applyStmt env cfg (DbCommand.reset ⟨yes⟩) s0).trace ∧
    (run applyStmt env cfg (DbCommand.reset ⟨yes⟩) s0).db =
      (clearStmts cfg).foldl applyStmt s0 := by
  have hval : clear applyStmt env.clearEnv cfg yes s0 =
      ⟨[Event.beginTx IsolationLevel.serializable, Event.queryTableNames]
          ++ env.clearEnv.tables.map Event.queryRowCount
          ++ (if yes then [] else [Event.promptForYes])
          ++ (clearStmts cfg).map Event.execSql
          ++ [Event.commit, Event.meiliConnect, Event.meiliClear],
        Except.error "failed to clear search index",
        (clearStmts cfg).foldl applyStmt s0⟩ := by
    rw [clear_confirmed applyStmt env.clearEnv cfg yes s0 h1 h2 h3]
    simp [clearFinish, hc, hm, hk]
  refine ⟨?_, ?_, ?_, ?_⟩ <;> simp [run, withPool, hp1, hp2, hval]

/-- Witness for C10 at a concrete environment whose search-index clear
fails. -/
theorem reset_after_partial_clear_skips_migrate_witness :
    meiliFailRunEnv.poolCreateOk = true ∧ meiliFailRunEnv.poolGetOk = true ∧
    meiliFailRunEnv.clearEnv.meiliClearOk = false ∧
    (run natApply meiliFailRunEnv demoConfig (DbCommand.reset ⟨true⟩) 0).outcome =
        Outcome.error "failed to clear search index" ∧
    Event.migrate ∉ (run natApply meiliFailRunEnv demoConfig (DbCommand.reset ⟨true⟩) 0).trace ∧
    Event.commit ∈ (run natApply meiliFailRunEnv demoConfig (DbCommand.reset ⟨true⟩) 0).trace ∧
    (run natApply meiliFailRunEnv demoConfig (DbCommand.reset ⟨true⟩) 0).db =
      (clearStmts demoConfig).foldl natApply 0 := by
  refine ⟨rfl, rfl, rfl, ?_, ?_, ?_, ?_⟩
  · exact (reset_after_partial_clear_skips_migrate natApply meiliFailRunEnv demoConfig true 0
      rfl rfl rfl rfl (Or.inl rfl) rfl rfl rfl).1
  · exact (reset_after_partial_clear_skips_migrate natApply meiliFailRunEnv demoConfig true 0
      rfl rfl rfl rfl (Or.inl rfl) rfl rfl rfl).2.1
  · exact (reset_after_partial_clear_skips_migrate natApply meiliFailRunEnv demoConfig true 0
      rfl rfl rfl rfl (Or.inl rfl) rfl rfl rfl).2.2.1
  · exact (reset_after_partial_clear_skips_migrate natApply meiliFailRunEnv demoConfig true 0
      rfl rfl rfl rfl (Or.inl rfl) rfl rfl rfl).2.2.2

end Tobira
